import Mathlib

/-!
Shallow embedding of the authentication core of the `user-management-api`
repository (`src/auth.py`, `src/models.py`, `src/main.py`), together with
theorems settling the specification claims about it.

Modelling conventions:
* Wall-clock instants and durations are `Int` seconds (Python `datetime` /
  `timedelta`; python-jose serialises a `datetime`-valued `exp` claim to a
  unix timestamp on encode).
* A JWT claims payload is an insertion-ordered association list, mirroring a
  Python `dict`; claim values are strings or integers, the only shapes this
  service produces or inspects.
* The HMAC signature of python-jose is modelled as an ideal MAC: the
  signature of a payload under a key is the pair of the key and the payload,
  so a signature verifies exactly when it was produced with the same key over
  the same payload and signatures are never forged or collided.
* Fallible Python code returns `Except`/`Option`: an uncaught exception is an
  `Except.error` value propagating to the caller.
-/

/-- Values a JWT claims map can hold in this service: strings and integers. -/
inductive JValue where
  | str (s : String)
  | int (n : Int)
deriving DecidableEq, Repr

/-- A JWT claims payload: insertion-ordered key/value list (a Python dict). -/
abbrev Claims := List (String × JValue)

/-- Python `d.get(k)`: the value at key `k`, or `none` when absent. -/
def claimsGet (c : Claims) (k : String) : Option JValue :=
  (c.find? (fun p => p.1 == k)).map (·.2)

/-- Python `d.update(\x7bk: v\x7d)` restricted to a single key: replaces the value
at `k` in place when the key exists (dict keys are unique, so the first
occurrence is the only one), otherwise appends the new pair at the end. -/
def claimsSet (c : Claims) (k : String) (v : JValue) : Claims :=
  match c with
  | [] => [(k, v)]
  | p :: ps => if p.1 == k then (k, v) :: ps else p :: claimsSet ps k v

/-- Ideal-MAC model of the HMAC signature python-jose computes: the signature
determines, and is determined by, the signing key and the signed payload. -/
def hmacSign (key : String) (payload : Claims) : String × Claims :=
  (key, payload)

/-- A structurally well-formed JWS token: header algorithm, claims payload and
signature, corresponding to the three dot-separated segments of the wire
format. -/
structure JWSToken where
  alg : String
  payload : Claims
  sig : String × Claims
deriving DecidableEq, Repr

/-- A token string presented to the decoder: either a structurally well-formed
JWS token or an arbitrary string that does not parse as one. -/
inductive TokenInput where
  | wf (t : JWSToken)
  | malformed (s : String)
deriving DecidableEq, Repr

/-- The `jose.JWTError` hierarchy raised by python-jose `jwt.decode`:
`JWTError` for signature/parse/algorithm failures, `ExpiredSignatureError`
for an expired `exp`, `JWTClaimsError` for ill-typed registered claims. -/
inductive JWTError where
  | malformedToken
  | unsupportedAlgorithm
  | invalidSignature
  | expiredSignature
  | invalidClaims
deriving DecidableEq, Repr

/-- Modelled after python-jose `jwt._validate_exp`: an absent `exp` claim is
accepted; a numeric `exp` (an integer, or a string Python `int()` parses) is
compared against the current time, raising `ExpiredSignatureError` when it is
strictly in the past (the default leeway is zero); any other value raises
`JWTClaimsError`. -/
def jose_validate_exp (payload : Claims) (now : Int) : Except JWTError Unit :=
  match claimsGet payload "exp" with
  | none => .ok ()
  | some (.int e) => if e < now then .error .expiredSignature else .ok ()
  | some (.str s) =>
    match s.toInt? with
    | some e => if e < now then .error .expiredSignature else .ok ()
    | none => .error .invalidClaims

/-- Modelled after python-jose `jwt._validate_sub`: a present `sub` claim must
be a string, otherwise `JWTClaimsError` is raised. -/
def jose_validate_sub (payload : Claims) : Except JWTError Unit :=
  match claimsGet payload "sub" with
  | some (.int _) => .error .invalidClaims
  | _ => .ok ()

/-- Modelled after python-jose `jwt.decode(token, key, algorithms)`: parse the
token, reject a header algorithm outside the allowed list, verify the
signature against `key`, then validate registered claims (of which this
service can only ever trip the `exp` and `sub` validations; `iat`, `nbf`,
`aud`, `iss`, `jti` checks are vacuous for the claim shapes modelled here).
Every failure is a raised `JWTError`. -/
def jose_jwt_decode (token : TokenInput) (key : String) (algorithms : List String)
    (now : Int) : Except JWTError Claims :=
  match token with
  | .malformed _ => .error .malformedToken
  | .wf t =>
    if t.alg ∈ algorithms then
      if t.sig = hmacSign key t.payload then
        match jose_validate_exp t.payload now with
        | .error e => .error e
        | .ok _ =>
          match jose_validate_sub t.payload with
          | .error e => .error e
          | .ok _ => .ok t.payload
      else .error .invalidSignature
    else .error .unsupportedAlgorithm

/-- `ACCESS_TOKEN_EXPIRE_MINUTES` from `auth.py`: environment-sourced with
default `"30"`. -/
def ACCESS_TOKEN_EXPIRE_MINUTES : Int := 30

/-- `create_access_token(data, expires_delta)` from `auth.py`. The Python code
tests `if expires_delta:` — truthiness, not presence — so both `None` and a
zero `timedelta` select the default expiry `now + ACCESS_TOKEN_EXPIRE_MINUTES`
minutes. The payload is `data` updated with `exp` and then `type: "access"`,
signed with the module `SECRET_KEY` under `ALGORITHM` (both passed here as
explicit parameters for the ambient module configuration). -/
def create_access_token (secret alg : String) (data : Claims)
    (expires_delta : Option Int) (now : Int) : TokenInput :=
  let expire : Int :=
    match expires_delta with
    | some d =>
      if d ≠ 0 then now + d
      else now + ACCESS_TOKEN_EXPIRE_MINUTES * 60
    | none => now + ACCESS_TOKEN_EXPIRE_MINUTES * 60
  let to_encode := claimsSet (claimsSet data "exp" (.int expire)) "type" (.str "access")
  .wf ⟨alg, to_encode, hmacSign secret to_encode⟩

/-- `decode_access_token(token)` from `auth.py`: calls
`jwt.decode(token, SECRET_KEY, algorithms=[ALGORITHM])` inside
`try … except JWTError: return None`. -/
def decode_access_token (secret alg : String) (token : TokenInput) (now : Int) :
    Option Claims :=
  match jose_jwt_decode token secret [alg] now with
  | .ok payload => some payload
  | .error _ => none

/-- A stored password-hash string: either a well-formed bcrypt digest (salt
plus the password it digests, in this ideal model of the one-way hash) or a
string that no scheme of the passlib context identifies. -/
inductive HashString where
  | bcrypt (salt : Nat) (password : String)
  | malformed (s : String)
deriving DecidableEq, Repr

/-- The exception passlib raises from `CryptContext.verify` when the hash
string cannot be identified by any configured scheme (`UnknownHashError`, a
`ValueError`). -/
inductive PasslibError where
  | unknownHash
deriving DecidableEq, Repr

/-- Modelled after passlib `CryptContext(schemes=["bcrypt"]).hash`: a salted
one-way digest. The salt is drawn by passlib; it is a parameter here. -/
def pwd_context_hash (salt : Nat) (password : String) : HashString :=
  .bcrypt salt password

/-- Modelled after passlib `CryptContext.verify(secret, hash)`: recomputes
with the embedded salt and compares for a well-formed bcrypt digest, and
raises `UnknownHashError` for a hash string no scheme identifies. -/
def pwd_context_verify (plain : String) (h : HashString) : Except PasslibError Bool :=
  match h with
  | .bcrypt _ pw => .ok (plain == pw)
  | .malformed _ => .error .unknownHash

/-- `hash_password(password)` from `auth.py`. -/
def hash_password (salt : Nat) (password : String) : HashString :=
  pwd_context_hash salt password

/-- `verify_password(plain_password, hashed_password)` from `auth.py`: a bare
delegation to `pwd_context.verify`, with no exception handling, so a passlib
error propagates to the caller. -/
def verify_password (plain_password : String) (hashed_password : HashString) :
    Except PasslibError Bool :=
  pwd_context_verify plain_password hashed_password

/-- The persisted `User` entity from `models.py`: the primary key is absent
(`None`) until the row is committed. Timestamps are unix seconds. -/
structure User where
  id : Option Nat
  username : String
  email : String
  hashed_password : HashString
  is_active : Bool
  is_superuser : Bool
  created_at : Int
  updated_at : Int
deriving DecidableEq, Repr

/-- The `UserCreate` request schema from `models.py`. -/
structure UserCreate where
  username : String
  email : String
  password : String
deriving DecidableEq, Repr

/-- The `UserRead` response schema from `models.py`: exactly the five exposed
fields; the password hash has no field here by construction. -/
structure UserRead where
  id : Nat
  username : String
  email : String
  is_active : Bool
  is_superuser : Bool
deriving DecidableEq, Repr

/-- The persistence collaborator's observable state: the committed user rows
and the next primary key the store will assign. -/
structure DB where
  users : List User
  next_id : Nat
deriving DecidableEq, Repr

/-- `get_user_by_username(session, username)` from `auth.py`:
`select(User).where(User.username == username)` then `scalar_one_or_none()`
(the unique constraint on `username` keeps matches to at most one row). -/
def get_user_by_username (db : DB) (username : String) : Option User :=
  db.users.find? (fun u => u.username == username)

/-- `create_user(session, user_create)` from `auth.py`: re-raises nothing and
raises `ValueError("Username already exists")` on a duplicate; otherwise
hashes the password, builds the row with `is_active=True`,
`is_superuser=False`, and commits it (the store assigns the primary key and
`refresh` returns the committed row). The bcrypt salt and the clock are the
ambient nondeterminism, passed as parameters. -/
def create_user (db : DB) (user_create : UserCreate) (salt : Nat) (now : Int) :
    Except String (DB × User) :=
  match get_user_by_username db user_create.username with
  | some _ => .error "Username already exists"
  | none =>
    let hashed_password := hash_password salt user_create.password
    let user : User :=
      { id := none
        username := user_create.username
        email := user_create.email
        hashed_password := hashed_password
        is_active := true
        is_superuser := false
        created_at := now
        updated_at := now }
    let persisted : User := { user with id := some db.next_id }
    .ok ({ users := db.users ++ [persisted], next_id := db.next_id + 1 }, persisted)

/-- `authenticate_user(session, username, password)` from `auth.py`: looks the
user up, returns `None` when absent, returns `None` when `verify_password`
returns false, else the user. A passlib exception from `verify_password` is
not caught here and propagates. -/
def authenticate_user (db : DB) (username password : String) :
    Except PasslibError (Option User) :=
  match db.users.find? (fun u => u.username == username) with
  | none => .ok none
  | some user =>
    match verify_password password user.hashed_password with
    | .error e => .error e
    | .ok ok => .ok (if ok then some user else none)

/-- An error surfaced by an endpoint: an `HTTPException` with status code and
detail message, or an exception no handler catches (surfaced by the server as
an internal error). -/
inductive ApiError where
  | http (statusCode : Nat) (detail : String)
  | unhandled (e : PasslibError)
deriving DecidableEq, Repr

/-- The `POST /register` handler from `main.py`: calls `create_user`, returns
the created row serialised through `response_model=UserRead`, and converts a
`ValueError` into `HTTPException(400, str(e))`. The first component is the
persistence state after the call. Committed rows always carry a primary key,
which the serialisation reads. -/
def register (db : DB) (user_create : UserCreate) (salt : Nat) (now : Int) :
    DB × Except ApiError UserRead :=
  match create_user db user_create salt now with
  | .error msg => (db, .error (.http 400 msg))
  | .ok (db2, user) =>
    (db2, .ok { id := user.id.getD 0
                username := user.username
                email := user.email
                is_active := user.is_active
                is_superuser := user.is_superuser })

/-- The success body of `POST /login` from `main.py`: the issued token, the
literal token type, and the minimal user summary fields. -/
structure LoginResponse where
  access_token : TokenInput
  token_type : String
  user_id : Option Nat
  user_username : String
  user_email : String
deriving DecidableEq, Repr

/-- The `POST /login` handler from `main.py`: authenticates, answers
`HTTPException(401, "Incorrect username or password")` on `None`, and on
success issues a token for `{"sub": username}` with
`expires_delta = timedelta(minutes=ACCESS_TOKEN_EXPIRE_MINUTES)`. A passlib
exception from `authenticate_user` is not caught and surfaces unhandled. -/
def login (secret alg : String) (db : DB) (username password : String) (now : Int) :
    Except ApiError LoginResponse :=
  match authenticate_user db username password with
  | .error e => .error (.unhandled e)
  | .ok none => .error (.http 401 "Incorrect username or password")
  | .ok (some user) =>
    let access_token :=
      create_access_token secret alg [("sub", .str user.username)]
        (some (ACCESS_TOKEN_EXPIRE_MINUTES * 60)) now
    .ok { access_token := access_token
          token_type := "bearer"
          user_id := user.id
          user_username := user.username
          user_email := user.email }

/-- `get_current_user` from `auth.py`: decode the bearer token; `None` payload
raises 401; an absent `sub` claim raises 401; an unknown username raises 401;
an inactive user raises 400; otherwise the user is returned. A non-string
`sub` value compared against the `username` varchar column matches no row
(and `jose_validate_sub` already rejects such tokens at decode). -/
def get_current_user (secret alg : String) (db : DB) (token : TokenInput)
    (now : Int) : Except ApiError User :=
  match decode_access_token secret alg token now with
  | none => .error (.http 401 "Invalid authentication credentials")
  | some payload =>
    match claimsGet payload "sub" with
    | none => .error (.http 401 "Invalid authentication credentials")
    | some (.int _) => .error (.http 401 "User not found")
    | some (.str username) =>
      match get_user_by_username db username with
      | none => .error (.http 401 "User not found")
      | some user =>
        if !user.is_active then .error (.http 400 "Inactive user")
        else .ok user

/-- Updating a key and then reading it back yields the written value. -/
theorem claimsGet_claimsSet_self (c : Claims) (k : String) (v : JValue) :
    claimsGet (claimsSet c k v) k = some v := by
  induction c with
  | nil => simp [claimsSet, claimsGet]
  | cons p ps ih =>
    by_cases hp : p.1 == k
    · simp [claimsSet, claimsGet, hp]
    · simp only [claimsSet, hp, Bool.false_eq_true, if_false]
      simpa [claimsGet, List.find?, hp] using ih

/-- Updating a key leaves every other key unchanged. -/
theorem claimsGet_claimsSet_ne (c : Claims) (k k2 : String) (v : JValue)
    (h : k2 ≠ k) : claimsGet (claimsSet c k v) k2 = claimsGet c k2 := by
  have hk : (k == k2) = false := by simpa using Ne.symm h
  induction c with
  | nil => simp [claimsSet, claimsGet, List.find?, hk]
  | cons p ps ih =>
    by_cases hp : p.1 == k
    · have hpk : p.1 = k := by simpa using hp
      simp [claimsSet, claimsGet, List.find?, hp, hpk, hk]
    · simp only [claimsSet, hp, Bool.false_eq_true, if_false]
      by_cases hp2 : p.1 == k2
      · simp [claimsGet, List.find?, hp2]
      · simpa [claimsGet, List.find?, hp2] using ih

/-- Characterisation of the decoder: `decode_access_token` returns a claims
map exactly when the token is structurally well-formed, its header algorithm
is the configured one, its signature verifies against the configured secret,
and the `exp` and `sub` claim validations of the underlying decode pass; the
returned map is the token's own payload. No other condition — in particular
no condition on the `type` claim — is checked. -/
theorem decode_access_token_eq_some (secret alg : String) (tok : TokenInput)
    (now : Int) (payload : Claims) :
    decode_access_token secret alg tok now = some payload ↔
      ∃ t : JWSToken, tok = .wf t ∧ t.payload = payload ∧ t.alg = alg ∧
        t.sig = hmacSign secret t.payload ∧
        jose_validate_exp t.payload now = .ok () ∧
        jose_validate_sub t.payload = .ok () := by
  constructor
  · intro h
    cases tok with
    | malformed s => simp [decode_access_token, jose_jwt_decode] at h
    | wf t =>
      by_cases halg : t.alg = alg
      · by_cases hsig : t.sig = hmacSign secret t.payload
        · cases hexp : jose_validate_exp t.payload now with
          | error e =>
            simp [decode_access_token, jose_jwt_decode, halg, hsig, hexp] at h
          | ok u =>
            cases u
            cases hsub : jose_validate_sub t.payload with
            | error e =>
              simp [decode_access_token, jose_jwt_decode, halg, hsig, hexp, hsub] at h
            | ok u2 =>
              cases u2
              have hpl : t.payload = payload := by
                simpa [decode_access_token, jose_jwt_decode, halg, hsig, hexp, hsub]
                  using h
              exact ⟨t, rfl, hpl, halg, hsig, hexp, hsub⟩
        · simp [decode_access_token, jose_jwt_decode, halg, hsig] at h
      · simp [decode_access_token, jose_jwt_decode, halg] at h
  · rintro ⟨t, rfl, rfl, ha, hs, he, hsub⟩
    simp [decode_access_token, jose_jwt_decode, ha, hs, he, hsub]

/-- Sample stored hash: the digest `hash_password` produces for `"pw"` with
salt 5. -/
def bobHashed : HashString := hash_password 5 "pw"

/-- Sample committed active user row. -/
def bobUser : User :=
  { id := some 1
    username := "bob"
    email := "b@x.com"
    hashed_password := bobHashed
    is_active := true
    is_superuser := false
    created_at := 0
    updated_at := 0 }

/-- Sample committed user row whose account has been deactivated. -/
def carolUser : User :=
  { id := some 2
    username := "carol"
    email := "c@x.com"
    hashed_password := hash_password 6 "pw2"
    is_active := false
    is_superuser := false
    created_at := 0
    updated_at := 0 }

/-- Sample persistence state holding one active and one inactive user. -/
def sampleDB : DB := { users := [bobUser, carolUser], next_id := 3 }

/-- Sample empty persistence state. -/
def emptyDB : DB := { users := [], next_id := 1 }

/-- Claim C1, counterexample: a token whose signed payload carries
`type = "refresh"`, with a valid signature under the service secret and an
unexpired `exp`, is accepted by `decode_access_token` — it yields the claims
map, not the invalid sentinel, refuting the claim that a non-`"access"` type
tag makes verification fail. -/
theorem C1_counterexample :
    decode_access_token "secret-key" "HS256"
        (.wf ⟨"HS256",
              [("sub", .str "alice"), ("type", .str "refresh"), ("exp", .int 1000)],
              hmacSign "secret-key"
                [("sub", .str "alice"), ("type", .str "refresh"), ("exp", .int 1000)]⟩)
        0
      = some [("sub", .str "alice"), ("type", .str "refresh"), ("exp", .int 1000)] ∧
    claimsGet [("sub", .str "alice"), ("type", .str "refresh"), ("exp", .int 1000)] "type"
      = some (.str "refresh") := by
  constructor <;> rfl

/-- Claim C1 (amended): `decode_access_token` returns a claims map exactly
when the token's signature verifies against the service secret, its header
algorithm is the configured one, and the `exp`/`sub` claim validations of the
underlying decode pass — the `type` tag is never examined, so a token whose
signed payload carries a type tag other than `"access"` still yields its
claims map. -/
theorem C1_token_validity (secret alg : String) (tok : TokenInput) (now : Int)
    (payload : Claims) :
    decode_access_token secret alg tok now = some payload ↔
      ∃ t : JWSToken, tok = .wf t ∧ t.payload = payload ∧ t.alg = alg ∧
        t.sig = hmacSign secret t.payload ∧
        jose_validate_exp t.payload now = .ok () ∧
        jose_validate_sub t.payload = .ok () :=
  decode_access_token_eq_some secret alg tok now payload

/-- Claim C1, witness for the amended theorem at a concrete token. -/
theorem C1_token_validity_witness :
    decode_access_token "k" "HS256"
        (.wf ⟨"HS256", [("exp", .int 50)], hmacSign "k" [("exp", .int 50)]⟩) 0
      = some [("exp", .int 50)] :=
  (C1_token_validity "k" "HS256"
      (.wf ⟨"HS256", [("exp", .int 50)], hmacSign "k" [("exp", .int 50)]⟩) 0
      [("exp", .int 50)]).mpr
    ⟨⟨"HS256", [("exp", .int 50)], hmacSign "k" [("exp", .int 50)]⟩,
      rfl, rfl, rfl, rfl, by rfl, by rfl⟩

/-- Claim C3, counterexample: on a malformed hash string, `verify_password`
does not return false — the passlib `UnknownHashError` propagates to the
caller, refuting the never-raises claim. -/
theorem C3_counterexample :
    verify_password "pw" (.malformed "not-a-bcrypt-hash") = .error .unknownHash := by
  rfl

/-- Claim C3 (amended): against a well-formed bcrypt hash, `verify_password`
returns exactly whether the plaintext matches the hashed password (false on
any mismatch); against a malformed hash string it does not return false but
propagates the underlying `UnknownHashError` to the caller. -/
theorem C3_verify_password_behaviour (p m : String) (salt : Nat) (pw : String) :
    verify_password p (.bcrypt salt pw) = .ok (p == pw) ∧
    verify_password p (.malformed m) = .error .unknownHash :=
  ⟨rfl, rfl⟩

/-- Claim C4: `decode_access_token` is total on token inputs — every failure
of the underlying `jwt.decode` (bad signature, malformed token, unsupported
algorithm, expiration, ill-typed claims) is caught and mapped to the sentinel
`none`, and a successful decode is returned unchanged, with no further check
(in particular no separate `exp` check) layered on top. -/
theorem C4_decode_never_raises (secret alg : String) (tok : TokenInput) (now : Int) :
    (∀ e : JWTError, jose_jwt_decode tok secret [alg] now = .error e →
       decode_access_token secret alg tok now = none) ∧
    (∀ payload : Claims, jose_jwt_decode tok secret [alg] now = .ok payload →
       decode_access_token secret alg tok now = some payload) := by
  constructor
  · intro e he
    simp [decode_access_token, he]
  · intro payload hp
    simp [decode_access_token, hp]

/-- Claim C4, witness: a garbage token string decodes to the sentinel. -/
theorem C4_decode_never_raises_witness :
    decode_access_token "k" "HS256" (.malformed "garbage") 0 = none :=
  (C4_decode_never_raises "k" "HS256" (.malformed "garbage") 0).1
    .malformedToken rfl

/-- Claim C2: `get_current_user` is the four-step pipeline — sentinel decode
gives HTTP 401, a decoded payload without a `sub` claim gives 401, an unknown
username gives 401, a found but inactive user gives HTTP 400, and otherwise
the found user is returned; consequently an inactive user is never returned
as the authenticated identity. -/
theorem C2_identity_resolution (secret alg : String) (db : DB) (tok : TokenInput)
    (now : Int) :
    (decode_access_token secret alg tok now = none →
       get_current_user secret alg db tok now =
         .error (.http 401 "Invalid authentication credentials")) ∧
    (∀ payload : Claims, decode_access_token secret alg tok now = some payload →
       claimsGet payload "sub" = none →
       get_current_user secret alg db tok now =
         .error (.http 401 "Invalid authentication credentials")) ∧
    (∀ (payload : Claims) (s : String),
       decode_access_token secret alg tok now = some payload →
       claimsGet payload "sub" = some (.str s) →
       get_user_by_username db s = none →
       get_current_user secret alg db tok now =
         .error (.http 401 "User not found")) ∧
    (∀ (payload : Claims) (s : String) (u : User),
       decode_access_token secret alg tok now = some payload →
       claimsGet payload "sub" = some (.str s) →
       get_user_by_username db s = some u →
       u.is_active = false →
       get_current_user secret alg db tok now =
         .error (.http 400 "Inactive user")) ∧
    (∀ (payload : Claims) (s : String) (u : User),
       decode_access_token secret alg tok now = some payload →
       claimsGet payload "sub" = some (.str s) →
       get_user_by_username db s = some u →
       u.is_active = true →
       get_current_user secret alg db tok now = .ok u) ∧
    (∀ u : User, get_current_user secret alg db tok now = .ok u →
       u.is_active = true) := by
  refine ⟨?_, ?_, ?_, ?_, ?_, ?_⟩
  · intro hdec
    simp [get_current_user, hdec]
  · intro payload hdec hsub
    simp [get_current_user, hdec, hsub]
  · intro payload s hdec hsub hu
    simp [get_current_user, hdec, hsub, hu]
  · intro payload s u hdec hsub hu hact
    simp [get_current_user, hdec, hsub, hu, hact]
  · intro payload s u hdec hsub hu hact
    simp [get_current_user, hdec, hsub, hu, hact]
  · intro u h
    unfold get_current_user at h
    split at h
    · simp at h
    · split at h
      · simp at h
      · simp at h
      · split at h
        · simp at h
        · split at h
          · simp at h
          · rename_i hact
            rw [Except.ok.injEq] at h
            subst h
            simpa using hact

/-- Claim C2, witness: on the sample store, a garbage bearer token resolves
to HTTP 401, and a correctly signed unexpired token for the deactivated user
resolves to HTTP 400, never the user record. -/
theorem C2_identity_resolution_witness :
    get_current_user "k" "HS256" sampleDB (.malformed "garbage") 0 =
      .error (.http 401 "Invalid authentication credentials") ∧
    get_current_user "k" "HS256" sampleDB
        (.wf ⟨"HS256", [("sub", .str "carol"), ("exp", .int 100)],
              hmacSign "k" [("sub", .str "carol"), ("exp", .int 100)]⟩) 0 =
      .error (.http 400 "Inactive user") :=
  ⟨(C2_identity_resolution "k" "HS256" sampleDB (.malformed "garbage") 0).1 rfl,
   (C2_identity_resolution "k" "HS256" sampleDB
        (.wf ⟨"HS256", [("sub", .str "carol"), ("exp", .int 100)],
              hmacSign "k" [("sub", .str "carol"), ("exp", .int 100)]⟩) 0).2.2.2.1
     [("sub", .str "carol"), ("exp", .int 100)] "carol" carolUser
     (by rfl) (by rfl) (by rfl) (by rfl)⟩

/-- Claim C5: when a user with the requested username already exists, a
`register` call fails with HTTP 400 `"Username already exists"` (the
`DuplicateUsername` error) and the set of persisted users is left unchanged
by the failed call. -/
theorem C5_duplicate_username (db : DB) (uc : UserCreate) (salt : Nat) (now : Int)
    (u : User) (h : get_user_by_username db uc.username = some u) :
    register db uc salt now = (db, .error (.http 400 "Username already exists")) := by
  simp [register, create_user, h]

/-- Claim C5, witness: registering `bob` again on a store already holding
`bob` fails with 400 and the store is returned unchanged. -/
theorem C5_duplicate_username_witness :
    register sampleDB ⟨"bob", "b@x.com", "pw"⟩ 9 1 =
      (sampleDB, .error (.http 400 "Username already exists")) :=
  C5_duplicate_username sampleDB ⟨"bob", "b@x.com", "pw"⟩ 9 1 bobUser (by rfl)

/-- Claim C6: whether the username is unknown, or the user exists and the
presented password fails verification against their stored (well-formed
bcrypt) hash, `login` fails with the identical error — HTTP 401 with the
identical message `"Incorrect username or password"` — so the two failure
causes are observationally indistinguishable to the caller. -/
theorem C6_login_indistinguishable (secret alg : String) (db : DB)
    (username password : String) (now : Int)
    (h : get_user_by_username db username = none ∨
         ∃ (u : User) (salt : Nat) (pw : String),
           get_user_by_username db username = some u ∧
           u.hashed_password = .bcrypt salt pw ∧ pw ≠ password) :
    login secret alg db username password now =
      .error (.http 401 "Incorrect username or password") := by
  rcases h with h | ⟨u, salt, pw, hu, hh, hne⟩
  · unfold get_user_by_username at h
    simp [login, authenticate_user, h]
  · unfold get_user_by_username at hu
    have hbeq : (password == pw) = false := by
      simpa using Ne.symm hne
    simp [login, authenticate_user, hu, verify_password, pwd_context_verify, hh, hbeq]

/-- Claim C6, witness: on the sample store, a login for an unknown user and a
login for `bob` with a wrong password fail with the byte-identical error. -/
theorem C6_login_indistinguishable_witness :
    login "k" "HS256" sampleDB "nosuchuser" "x" 0 =
      .error (.http 401 "Incorrect username or password") ∧
    login "k" "HS256" sampleDB "bob" "wrong" 0 =
      .error (.http 401 "Incorrect username or password") :=
  ⟨C6_login_indistinguishable "k" "HS256" sampleDB "nosuchuser" "x" 0
     (Or.inl (by rfl)),
   C6_login_indistinguishable "k" "HS256" sampleDB "bob" "wrong" 0
     (Or.inr ⟨bobUser, 5, "pw", by rfl, by rfl, by decide⟩)⟩

/-- A well-formed token whose signature is not the genuine signature of its
payload under the service secret decodes to the sentinel. -/
theorem decode_none_of_bad_sig (secret alg : String) (t2 : JWSToken) (now : Int)
    (h : t2.sig ≠ hmacSign secret t2.payload) :
    decode_access_token secret alg (.wf t2) now = none := by
  cases hd : decode_access_token secret alg (.wf t2) now with
  | none => rfl
  | some p =>
    rcases (decode_access_token_eq_some secret alg _ now p).mp hd with
      ⟨t3, heq, _, _, hs, _, _⟩
    injection heq with h3
    subst h3
    exact absurd hs h

/-- A well-formed token whose `exp` validation fails decodes to the
sentinel. -/
theorem decode_none_of_expired (secret alg : String) (t2 : JWSToken) (now : Int)
    (h : jose_validate_exp t2.payload now = .error .expiredSignature) :
    decode_access_token secret alg (.wf t2) now = none := by
  cases hd : decode_access_token secret alg (.wf t2) now with
  | none => rfl
  | some p =>
    rcases (decode_access_token_eq_some secret alg _ now p).mp hd with
      ⟨t3, heq, _, _, _, he, _⟩
    injection heq with h3
    subst h3
    rw [h] at he
    exact absurd he (by simp)

/-- Claim C7: a token issued for subject `s` with a positive TTL, verified
before its expiration with the same secret and algorithm, decodes to a
claims map whose `sub` field is `s`; and any well-formed token whose
signature is not the genuine signature of its payload under the service
secret fails verification with the sentinel. -/
theorem C7_roundtrip_and_tamper (secret alg s : String) (ttl t0 t : Int)
    (h1 : 0 < ttl) (h2 : t < t0 + ttl) :
    (∃ payload : Claims,
        decode_access_token secret alg
            (create_access_token secret alg [("sub", .str s)] (some ttl) t0) t
          = some payload ∧
        claimsGet payload "sub" = some (.str s)) ∧
    (∀ t2 : JWSToken, t2.sig ≠ hmacSign secret t2.payload →
        decode_access_token secret alg (.wf t2) t = none) := by
  constructor
  · have hne : ttl ≠ 0 := by omega
    have htok : create_access_token secret alg [("sub", .str s)] (some ttl) t0
        = .wf ⟨alg,
               [("sub", .str s), ("exp", .int (t0 + ttl)), ("type", .str "access")],
               hmacSign secret
                 [("sub", .str s), ("exp", .int (t0 + ttl)), ("type", .str "access")]⟩ := by
      simp [create_access_token, hne]
      exact ⟨rfl, rfl⟩
    have hexp : jose_validate_exp
        [("sub", JValue.str s), ("exp", .int (t0 + ttl)), ("type", .str "access")] t
        = .ok () := by
      show (if t0 + ttl < t
            then (Except.error JWTError.expiredSignature : Except JWTError Unit)
            else Except.ok ()) = Except.ok ()
      rw [if_neg (by omega)]
    refine ⟨[("sub", .str s), ("exp", .int (t0 + ttl)), ("type", .str "access")],
        (decode_access_token_eq_some secret alg _ t _).mpr
          ⟨⟨alg, [("sub", .str s), ("exp", .int (t0 + ttl)), ("type", .str "access")],
            hmacSign secret
              [("sub", .str s), ("exp", .int (t0 + ttl)), ("type", .str "access")]⟩,
           htok, rfl, rfl, rfl, hexp, rfl⟩, rfl⟩
  · intro t2 hsig
    exact decode_none_of_bad_sig secret alg t2 t hsig

/-- Claim C7, witness at concrete inputs: a token for `alice` with a half-hour
TTL round-trips 100 seconds later, and a token carrying a wrong signature is
rejected. -/
theorem C7_roundtrip_and_tamper_witness :
    (∃ payload : Claims,
        decode_access_token "k" "HS256"
            (create_access_token "k" "HS256" [("sub", .str "alice")] (some 1800) 0) 100
          = some payload ∧
        claimsGet payload "sub" = some (.str "alice")) ∧
    (∀ t2 : JWSToken, t2.sig ≠ hmacSign "k" t2.payload →
        decode_access_token "k" "HS256" (.wf t2) 100 = none) :=
  C7_roundtrip_and_tamper "k" "HS256" "alice" 1800 0 100 (by decide) (by decide)

/-- Claim C8: a token issued with a negative TTL (one second in the past)
carries an expiration already elapsed at issuance, so verification at any
time from issuance onward yields the invalid sentinel. -/
theorem C8_negative_ttl_expired (secret alg s : String) (t0 t : Int)
    (h : t0 ≤ t) :
    decode_access_token secret alg
        (create_access_token secret alg [("sub", .str s)] (some (-1)) t0) t = none := by
  have htok : create_access_token secret alg [("sub", .str s)] (some (-1)) t0
      = .wf ⟨alg,
             [("sub", .str s), ("exp", .int (t0 + -1)), ("type", .str "access")],
             hmacSign secret
               [("sub", .str s), ("exp", .int (t0 + -1)), ("type", .str "access")]⟩ := by
    simp [create_access_token]
    exact ⟨rfl, rfl⟩
  have hexp : jose_validate_exp
      [("sub", JValue.str s), ("exp", .int (t0 + -1)), ("type", .str "access")] t
      = .error .expiredSignature := by
    show (if t0 + -1 < t
          then (Except.error JWTError.expiredSignature : Except JWTError Unit)
          else Except.ok ()) = Except.error JWTError.expiredSignature
    rw [if_pos (by omega)]
  rw [htok]
  exact decode_none_of_expired secret alg _ t hexp

/-- Claim C8, witness: a token issued at time 0 with TTL −1 already fails
verification at time 0. -/
theorem C8_negative_ttl_expired_witness :
    decode_access_token "k" "HS256"
        (create_access_token "k" "HS256" [("sub", .str "alice")] (some (-1)) 0) 0
      = none :=
  C8_negative_ttl_expired "k" "HS256" "alice" 0 0 (by decide)

/-- Claim C9: when the requested username is not taken, `register` persists
exactly one new `User` whose password is stored as the bcrypt hash of the
candidate password and whose flags are `is_active = true`,
`is_superuser = false`; the response is the `UserRead` projection carrying
only `id`, `username`, `email`, `is_active` and `is_superuser` — the
`UserRead` schema has no password-hash field. -/
theorem C9_register_persists_and_masks (db : DB) (uc : UserCreate) (salt : Nat)
    (now : Int) (h : get_user_by_username db uc.username = none) :
    ∃ u : User,
      register db uc salt now =
        ({ users := db.users ++ [u], next_id := db.next_id + 1 },
         .ok { id := db.next_id, username := uc.username, email := uc.email,
               is_active := true, is_superuser := false }) ∧
      u.username = uc.username ∧
      u.email = uc.email ∧
      u.hashed_password = hash_password salt uc.password ∧
      u.is_active = true ∧
      u.is_superuser = false := by
  refine ⟨{ id := some db.next_id, username := uc.username, email := uc.email,
            hashed_password := hash_password salt uc.password, is_active := true,
            is_superuser := false, created_at := now, updated_at := now },
          ?_, rfl, rfl, rfl, rfl, rfl⟩
  simp [register, create_user, h]

/-- Claim C9, witness: registering `bob` on an empty store persists him and
answers the five-field record. -/
theorem C9_register_persists_and_masks_witness :
    ∃ u : User,
      register emptyDB ⟨"bob", "b@x.com", "pw"⟩ 5 0 =
        ({ users := emptyDB.users ++ [u], next_id := emptyDB.next_id + 1 },
         .ok { id := emptyDB.next_id, username := "bob", email := "b@x.com",
               is_active := true, is_superuser := false }) ∧
      u.username = "bob" ∧
      u.email = "b@x.com" ∧
      u.hashed_password = hash_password 5 "pw" ∧
      u.is_active = true ∧
      u.is_superuser = false :=
  C9_register_persists_and_masks emptyDB ⟨"bob", "b@x.com", "pw"⟩ 5 0 (by rfl)

/-- Claim C10: an explicitly passed zero TTL is indistinguishable from an
omitted TTL — the Python code tests truthiness of `expires_delta`, and
`timedelta(0)` is falsy — so the issued token's expiration is `now` plus the
configured 30-minute default rather than `now`, and the token verifies
throughout the default window instead of expiring immediately. -/
theorem C10_zero_ttl_uses_default (secret alg : String) (data : Claims)
    (now : Int) :
    create_access_token secret alg data (some 0) now
      = create_access_token secret alg data none now ∧
    (∃ t2 : JWSToken,
        create_access_token secret alg data (some 0) now = .wf t2 ∧
        claimsGet t2.payload "exp"
          = some (.int (now + ACCESS_TOKEN_EXPIRE_MINUTES * 60))) ∧
    (∀ tv : Int, tv ≤ now + ACCESS_TOKEN_EXPIRE_MINUTES * 60 →
        jose_validate_sub data = .ok () →
        ∃ payload : Claims,
          decode_access_token secret alg
              (create_access_token secret alg data (some 0) now) tv
            = some payload) := by
  have hx : claimsGet
      (claimsSet (claimsSet data "exp" (.int (now + ACCESS_TOKEN_EXPIRE_MINUTES * 60)))
        "type" (.str "access")) "exp"
      = some (.int (now + ACCESS_TOKEN_EXPIRE_MINUTES * 60)) := by
    rw [claimsGet_claimsSet_ne _ _ _ _ (by decide), claimsGet_claimsSet_self]
  refine ⟨rfl, ?_, ?_⟩
  · exact ⟨⟨alg,
            claimsSet (claimsSet data "exp" (.int (now + ACCESS_TOKEN_EXPIRE_MINUTES * 60)))
              "type" (.str "access"),
            hmacSign secret
              (claimsSet (claimsSet data "exp" (.int (now + ACCESS_TOKEN_EXPIRE_MINUTES * 60)))
                "type" (.str "access"))⟩,
          rfl, hx⟩
  · intro tv htv hsubok
    have hexp : jose_validate_exp
        (claimsSet (claimsSet data "exp" (.int (now + ACCESS_TOKEN_EXPIRE_MINUTES * 60)))
          "type" (.str "access")) tv = .ok () := by
      unfold jose_validate_exp
      rw [hx]
      show (if now + ACCESS_TOKEN_EXPIRE_MINUTES * 60 < tv
            then (Except.error JWTError.expiredSignature : Except JWTError Unit)
            else Except.ok ()) = Except.ok ()
      rw [if_neg (by omega)]
    have hs : claimsGet
        (claimsSet (claimsSet data "exp" (.int (now + ACCESS_TOKEN_EXPIRE_MINUTES * 60)))
          "type" (.str "access")) "sub"
        = claimsGet data "sub" := by
      rw [claimsGet_claimsSet_ne _ _ _ _ (by decide),
          claimsGet_claimsSet_ne _ _ _ _ (by decide)]
    have hsub : jose_validate_sub
        (claimsSet (claimsSet data "exp" (.int (now + ACCESS_TOKEN_EXPIRE_MINUTES * 60)))
          "type" (.str "access")) = .ok () := by
      unfold jose_validate_sub at hsubok ⊢
      rw [hs]
      exact hsubok
    exact ⟨_, (decode_access_token_eq_some secret alg _ tv _).mpr
        ⟨⟨alg,
          claimsSet (claimsSet data "exp" (.int (now + ACCESS_TOKEN_EXPIRE_MINUTES * 60)))
            "type" (.str "access"),
          hmacSign secret
            (claimsSet (claimsSet data "exp" (.int (now + ACCESS_TOKEN_EXPIRE_MINUTES * 60)))
              "type" (.str "access"))⟩,
         rfl, rfl, rfl, rfl, hexp, hsub⟩⟩

/-- Claim C10, witness: at concrete inputs, issuing with a zero TTL equals
issuing with no TTL, and the token still verifies 1800 seconds later. -/
theorem C10_zero_ttl_uses_default_witness :
    create_access_token "k" "HS256" [("sub", .str "alice")] (some 0) 0
      = create_access_token "k" "HS256" [("sub", .str "alice")] none 0 ∧
    (∃ payload : Claims,
        decode_access_token "k" "HS256"
            (create_access_token "k" "HS256" [("sub", .str "alice")] (some 0) 0) 1800
          = some payload) :=
  ⟨(C10_zero_ttl_uses_default "k" "HS256" [("sub", .str "alice")] 0).1,
   (C10_zero_ttl_uses_default "k" "HS256" [("sub", .str "alice")] 0).2.2 1800
     (by decide) (by rfl)⟩
